import Mathlib

/-
Verification of the simulation core of the Turrets game (src/lib.rs).
Floating-point (`f32`) quantities are modelled as real numbers; the
process-wide `u32` id counter is modelled by explicit state passing with
wrap-around at 2^32.
-/

open Classical

noncomputable section

/-- Radius of a `Shot` (`SHOT_RADIUS` in the source). -/
def SHOT_RADIUS : ℝ := 5

/-- Radius of a `Turret` (`TURRET_RADIUS` in the source). -/
def TURRET_RADIUS : ℝ := 15

/-- Radius of the `Player` (`PLAYER_RADIUS` in the source). -/
def PLAYER_RADIUS : ℝ := 20

/-- Point data structure containing X and Y coordinates. -/
structure Point where
  x : ℝ
  y : ℝ

/-- Velocity data type containing a speed and heading (radians). -/
structure Velocity where
  speed : ℝ
  heading : ℝ

/-- Create a new point with the given coordinates (`Point::new`). -/
def Point.new (x y : ℝ) : Point := ⟨x, y⟩

/-- Linear distance to another point (`Point::distance_to`). -/
def Point.distance_to (p other : Point) : ℝ :=
  Real.sqrt ((p.x - other.x) ^ 2 + (p.y - other.y) ^ 2)

/-- Create a new velocity object (`Velocity::new`). -/
def Velocity.new (speed heading : ℝ) : Velocity := ⟨speed, heading⟩

/-- X and Y components of this velocity (`Velocity::get_components`). -/
def Velocity.get_components (v : Velocity) : ℝ × ℝ :=
  (Real.cos v.heading * v.speed, Real.sin v.heading * v.speed)

/-- Update the position after moving for time `dt` at velocity `v`
(`Point::move_time`). -/
def Point.move_time (p : Point) (dt : ℝ) (v : Velocity) : Point :=
  ⟨p.x + v.get_components.1 * dt, p.y + v.get_components.2 * dt⟩

/-- Move this point a linear distance in a given direction
(`Point::move_distance`). -/
def Point.move_distance (p : Point) (distance heading : ℝ) : Point :=
  ⟨p.x + Real.cos heading * distance, p.y + Real.sin heading * distance⟩

/-- Check if this point is outside of the given bounds
(`Point::is_out_of_bounds`). -/
def Point.is_out_of_bounds (p : Point) (bounds : ℝ × ℝ) : Prop :=
  p.x > bounds.1 ∨ p.x < 0 ∨ p.y > bounds.2 ∨ p.y < 0

/-- Wrap the point to the other side of the bounds (`Point::wrap_bounds`). -/
def Point.wrap_bounds (p : Point) (bounds : ℝ × ℝ) : Point :=
  ⟨if p.x > bounds.1 then 0 else if p.x < 0 then bounds.1 else p.x,
   if p.y > bounds.2 then 0 else if p.y < 0 then bounds.2 else p.y⟩

/-- Prevent this point from going out of bounds (`Point::keep_in_bounds`). -/
def Point.keep_in_bounds (p : Point) (bounds : ℝ × ℝ) : Point :=
  ⟨if p.x > bounds.1 then bounds.1 else if p.x < 0 then 0 else p.x,
   if p.y > bounds.2 then bounds.2 else if p.y < 0 then 0 else p.y⟩

/-- Modulus of the `u32` id counter. -/
def U32_MOD : Nat := 2 ^ 32

/-- Generate a new unique ID for a new Actor (`get_next_actor_id`).  The
source increments a global mutable `u32`; here the counter is threaded
explicitly and wraps at 2^32 (release-mode `u32` overflow semantics).
Returns the new id together with the new counter value (they coincide). -/
def get_next_actor_id (next : Nat) : Nat × Nat :=
  let n := (next + 1) % U32_MOD
  (n, n)

/-- Shot data structure. -/
structure Shot where
  id : Nat
  position : Point
  bounds : ℝ × ℝ
  velocity : Velocity
  damage : ℝ
  health : ℝ

/-- Create a new shot (`Shot::new`); the id is drawn from the counter. -/
def Shot.new (position : Point) (bounds : ℝ × ℝ) (velocity : Velocity)
    (damage lifespan : ℝ) (ctr : Nat) : Shot × Nat :=
  let ic := get_next_actor_id ctr
  ({ id := ic.1, position := position, bounds := bounds, velocity := velocity,
     damage := damage, health := lifespan * 10 }, ic.2)

/-- Radius of this Shot (`Shot::get_radius`). -/
def Shot.get_radius (_ : Shot) : ℝ := SHOT_RADIUS

/-- Update the state of this Shot (`Shot::update`): move, then lose 10
health per second. -/
def Shot.update (s : Shot) (dt : ℝ) : Shot :=
  { s with position := s.position.move_time dt s.velocity,
           health := s.health - dt * 10 }

/-- Damage this Shot (`Shot::do_damage`). -/
def Shot.do_damage (s : Shot) (damage : ℝ) : Shot :=
  { s with health := s.health - damage }

/-- Check if this Shot is dead (`Shot::is_dead`): health at most 0 or out
of bounds. -/
def Shot.is_dead (s : Shot) : Prop :=
  s.health ≤ 0 ∨ s.position.is_out_of_bounds s.bounds

/-- New shots created by this Shot: always empty (`Shot::collect_shots`). -/
def Shot.collect_shots (s : Shot) : List Shot × Shot := ([], s)

/-- Turret data structure. -/
structure Turret where
  id : Nat
  position : Point
  bounds : ℝ × ℝ
  health : ℝ
  rotation : ℝ
  turn_speed : ℝ
  shots : List Shot
  time_since_last_shot : ℝ

/-- Create a new Turret (`Turret::new`). -/
def Turret.new (position : Point) (bounds : ℝ × ℝ) (ctr : Nat) : Turret × Nat :=
  let ic := get_next_actor_id ctr
  ({ id := ic.1, position := position, bounds := bounds, health := 100,
     rotation := 0, turn_speed := 1, shots := [], time_since_last_shot := 0 }, ic.2)

/-- Radius of this Turret (`Turret::get_radius`). -/
def Turret.get_radius (_ : Turret) : ℝ := TURRET_RADIUS

/-- Fire 4 shots (`Turret::fire_shots`): for i in 0..4, a shot with speed
200 at heading rotation + i*(PI/2), spawned (turret radius + shot radius)
away from the turret centre along that heading, damage 25, lifespan 3. -/
def Turret.fire_shots (t : Turret) (ctr : Nat) : Turret × Nat :=
  (List.range 4).foldl
    (fun tc i =>
      let shot_heading := tc.1.rotation + (i : ℝ) * (Real.pi / 2)
      let shot_position :=
        tc.1.position.move_distance (tc.1.get_radius + SHOT_RADIUS) shot_heading
      let sc := Shot.new shot_position tc.1.bounds (Velocity.new 200 shot_heading)
        25 3 tc.2
      ({ tc.1 with shots := tc.1.shots ++ [sc.1] }, sc.2))
    (t, ctr)

/-- Update the state of this Turret (`Turret::update`): rotate, then fire
once the elapsed time exceeds 2 seconds (resetting it to 0), otherwise
accumulate the elapsed time. -/
def Turret.update (t : Turret) (dt : ℝ) (ctr : Nat) : Turret × Nat :=
  let t1 := { t with rotation := t.rotation + dt * t.turn_speed }
  if t1.time_since_last_shot > 2 then
    let tc := t1.fire_shots ctr
    ({ tc.1 with time_since_last_shot := 0 }, tc.2)
  else
    ({ t1 with time_since_last_shot := t1.time_since_last_shot + dt }, ctr)

/-- Damage dealt by hitting this Turret (`Turret::get_damage`). -/
def Turret.get_damage (_ : Turret) : ℝ := 100

/-- Damage this Turret (`Turret::do_damage`). -/
def Turret.do_damage (t : Turret) (damage : ℝ) : Turret :=
  { t with health := t.health - damage }

/-- Drain the pending shots of this Turret (`Turret::collect_shots`). -/
def Turret.collect_shots (t : Turret) : List Shot × Turret :=
  (t.shots, { t with shots := [] })

/-- Check if this Turret is dead (`Turret::is_dead`). -/
def Turret.is_dead (t : Turret) : Prop := t.health ≤ 0

/-- Key codes the player logic distinguishes. -/
inductive KeyCode where
  | up
  | down
  | left
  | right
  | space
  | escape
  | delete
  | other (code : Nat)

/-- Player data structure. -/
structure Player where
  id : Nat
  position : Point
  bounds : ℝ × ℝ
  health : ℝ
  velocity : Velocity
  shots : List Shot
  current_pressed_key : KeyCode

/-- Create a new Player (`Player::new`). -/
def Player.new (position : Point) (bounds : ℝ × ℝ) (ctr : Nat) : Player × Nat :=
  let ic := get_next_actor_id ctr
  ({ id := ic.1, position := position, bounds := bounds, health := 100,
     velocity := Velocity.new 0 0, shots := [],
     current_pressed_key := KeyCode.delete }, ic.2)

/-- Radius of this Player (`Player::get_radius`). -/
def Player.get_radius (_ : Player) : ℝ := PLAYER_RADIUS

/-- Fire a shot out the front of the Player (`Player::fire_shot`): speed is
the player speed plus 200, heading is the player heading, spawned (player
radius + shot radius) away, damage 20, lifespan 5. -/
def Player.fire_shot (p : Player) (ctr : Nat) : Player × Nat :=
  let shot_velocity := { p.velocity with speed := p.velocity.speed + 200 }
  let shot_position :=
    p.position.move_distance (p.get_radius + SHOT_RADIUS) shot_velocity.heading
  let sc := Shot.new shot_position p.bounds shot_velocity 20 5 ctr
  ({ p with shots := p.shots ++ [sc.1] }, sc.2)

/-- Velocity of the Player after the turn-key handling at the start of
`Player::update`: Right adds 0.05 rad to the heading, Left subtracts it. -/
def Player.turned_velocity (p : Player) : Velocity :=
  match p.current_pressed_key with
  | KeyCode.right => { p.velocity with heading := p.velocity.heading + 0.05 }
  | KeyCode.left => { p.velocity with heading := p.velocity.heading - 0.05 }
  | _ => p.velocity

/-- Position of the Player after moving but before the bounds clamp in
`Player::update`. -/
def Player.moved_position (p : Player) (dt : ℝ) : Point :=
  p.position.move_time dt p.turned_velocity

/-- Update the state of this Player (`Player::update`): turn, move, then
keep the position in bounds. -/
def Player.update (p : Player) (dt : ℝ) : Player :=
  { p with velocity := p.turned_velocity,
           position := (p.moved_position dt).keep_in_bounds p.bounds }

/-- Damage dealt by colliding with the Player (`Player::get_damage`). -/
def Player.get_damage (_ : Player) : ℝ := 100

/-- Damage this Player (`Player::do_damage`). -/
def Player.do_damage (p : Player) (damage : ℝ) : Player :=
  { p with health := p.health - damage }

/-- Drain the pending shots of this Player (`Player::collect_shots`). -/
def Player.collect_shots (p : Player) : List Shot × Player :=
  (p.shots, { p with shots := [] })

/-- Check if this Player is dead (`Player::is_dead`). -/
def Player.is_dead (p : Player) : Prop := p.health ≤ 0

/-- A boxed actor in the world's collection.  Only Turrets and Shots are
ever inserted into `MainState.actors` (the Player is stored separately). -/
inductive ActorB where
  | shot (s : Shot)
  | turret (t : Turret)

/-- Actor trait `get_id`. -/
def ActorB.get_id : ActorB → Nat
  | .shot s => s.id
  | .turret t => t.id

/-- Actor trait `get_radius`. -/
def ActorB.get_radius : ActorB → ℝ
  | .shot s => s.get_radius
  | .turret t => t.get_radius

/-- Actor trait `get_position`. -/
def ActorB.get_position : ActorB → Point
  | .shot s => s.position
  | .turret t => t.position

/-- Actor trait `get_damage`. -/
def ActorB.get_damage : ActorB → ℝ
  | .shot s => s.damage
  | .turret t => t.get_damage

/-- Actor trait `do_damage`. -/
def ActorB.do_damage : ActorB → ℝ → ActorB
  | .shot s, d => .shot (s.do_damage d)
  | .turret t, d => .turret (t.do_damage d)

/-- Actor trait `is_dead`. -/
def ActorB.is_dead : ActorB → Prop
  | .shot s => s.is_dead
  | .turret t => t.is_dead

/-- Actor trait `update`; the id counter is threaded for turret volleys. -/
def ActorB.update : ActorB → ℝ → Nat → ActorB × Nat
  | .shot s, dt, c => (.shot (s.update dt), c)
  | .turret t, dt, c =>
    let tc := t.update dt c
    (.turret tc.1, tc.2)

/-- Actor trait `collect_shots`. -/
def ActorB.collect_shots : ActorB → List Shot × ActorB
  | .shot s =>
    let r := s.collect_shots
    (r.1, .shot r.2)
  | .turret t =>
    let r := t.collect_shots
    (r.1, .turret r.2)

/-- Health of a boxed actor (both variants carry a health pool); proof-side
accessor. -/
def ActorB.health : ActorB → ℝ
  | .shot s => s.health
  | .turret t => t.health

/-- Default-method `Actor::check_for_collision` called with an actor as
`self`: centres closer than the radius sum minus 0.1 and distinct ids. -/
def ActorB.check_for_collision (a other : ActorB) : Prop :=
  a.get_position.distance_to other.get_position
      < a.get_radius + other.get_radius - 0.1
    ∧ a.get_id ≠ other.get_id

/-- Default-method `Actor::check_for_collision` called with the Player as
`self`. -/
def Player.check_for_collision (p : Player) (other : ActorB) : Prop :=
  p.position.distance_to other.get_position
      < p.get_radius + other.get_radius - 0.1
    ∧ p.id ≠ other.get_id

/-- Collision-relevant data of an actor: id, centre, radius and the damage
it deals (`get_damage`), none of which is changed by `do_damage`. -/
structure Core where
  id : Nat
  pos : Point
  radius : ℝ
  dmg : ℝ

/-- Core of a Shot. -/
def Shot.core (s : Shot) : Core := ⟨s.id, s.position, SHOT_RADIUS, s.damage⟩

/-- Core of a Turret. -/
def Turret.core (t : Turret) : Core := ⟨t.id, t.position, TURRET_RADIUS, 100⟩

/-- Core of the Player. -/
def Player.core (p : Player) : Core := ⟨p.id, p.position, PLAYER_RADIUS, 100⟩

/-- Core of a boxed actor. -/
def ActorB.core : ActorB → Core
  | .shot s => s.core
  | .turret t => t.core

/-- Collision predicate on cores: the body of
`Actor::check_for_collision`. -/
def collide (c d : Core) : Prop :=
  c.pos.distance_to d.pos < c.radius + d.radius - 0.1 ∧ c.id ≠ d.id

/-- One player-versus-actor test of `MainState::handle_collisions`: on
collision both exchange their `get_damage`. -/
def playerVs (p : Player) (a : ActorB) : Player × ActorB :=
  if p.check_for_collision a then (p.do_damage a.get_damage, a.do_damage p.get_damage)
  else (p, a)

/-- One actor-versus-actor test of `MainState::handle_collisions`. -/
def actorVs (a b : ActorB) : ActorB × ActorB :=
  if a.check_for_collision b then (a.do_damage b.get_damage, b.do_damage a.get_damage)
  else (a, b)

/-- Inner j-loop of `MainState::handle_collisions`: test actor `a` against
every later actor in order, mutating both sides. -/
def actorVsList : ActorB → List ActorB → ActorB × List ActorB
  | a, [] => (a, [])
  | a, b :: rest =>
    let ab := actorVs a b
    let ar := actorVsList ab.1 rest
    (ar.1, ab.2 :: ar.2)

/-- Loop of `MainState::handle_collisions`: for each actor i in order, test
it against the player, then against every actor after it. -/
def collisionLoop : Player → List ActorB → Player × List ActorB
  | p, [] => (p, [])
  | p, a :: rest =>
    let pa := playerVs p a
    let ar := actorVsList pa.2 rest
    let pr := collisionLoop pa.1 ar.2
    (pr.1, ar.1 :: pr.2)
termination_by p l => l.length
decreasing_by
  have h : ∀ (x : ActorB) (l : List ActorB), (actorVsList x l).2.length = l.length := by
    intro x l
    induction l generalizing x with
    | nil => rfl
    | cons b r ih => simp [actorVsList, ih]
  simp [h]

/-- Data structure storing the main state of the game. -/
structure MainState where
  player : Player
  actors : List ActorB

/-- World-level `MainState::handle_collisions`. -/
def MainState.handle_collisions (s : MainState) : MainState :=
  { player := (collisionLoop s.player s.actors).1,
    actors := (collisionLoop s.player s.actors).2 }

/-- Remove the dead actors from the game (`MainState::remove_dead`); the
player field is untouched. -/
def MainState.remove_dead (s : MainState) : MainState :=
  { s with actors := s.actors.filter (fun a => !(decide a.is_dead)) }

/-- Drain pending shots from each actor in order, as the loop in
`MainState::collect_shots` does. -/
def drainShots : List ActorB → List Shot × List ActorB
  | [] => ([], [])
  | a :: rest =>
    let ac := a.collect_shots
    let rc := drainShots rest
    (ac.1 ++ rc.1, ac.2 :: rc.2)

/-- World-level `MainState::collect_shots`: drain the player, then every
actor in order, and append all new shots at the end of the collection. -/
def MainState.collect_shots (s : MainState) : MainState :=
  let pc := s.player.collect_shots
  let rc := drainShots s.actors
  { player := pc.2, actors := rc.2 ++ (pc.1 ++ rc.1).map ActorB.shot }

/-- Update every actor in order, threading the id counter. -/
def updateActors (dt : ℝ) : List ActorB → Nat → List ActorB × Nat
  | [], c => ([], c)
  | a :: rest, c =>
    let ac := a.update dt c
    let rc := updateActors dt rest ac.2
    (ac.1 :: rc.1, rc.2)

/-- One fixed tick of `MainState::update`: update player and actors,
collect shots, handle collisions, remove dead actors. -/
def MainState.update (s : MainState) (dt : ℝ) (c : Nat) : MainState × Nat :=
  let p1 := s.player.update dt
  let ac := updateActors dt s.actors c
  (MainState.remove_dead
    (MainState.handle_collisions
      (MainState.collect_shots { player := p1, actors := ac.1 })), ac.2)

/-- Iterate `Turret::update` for `n` fixed ticks of length `dt`, threading
the id counter. -/
def turretTicks (dt : ℝ) : ℕ → Turret × Nat → Turret × Nat
  | 0, tc => tc
  | n + 1, tc => (turretTicks dt n tc).1.update dt (turretTicks dt n tc).2

/-- Iterate `Shot::update` for `n` fixed ticks of length `dt`. -/
def shotTicks (dt : ℝ) : ℕ → Shot → Shot
  | 0, s => s
  | n + 1, s => (shotTicks dt n s).update dt

/-- The i-th shot of a turret volley, with the id it was allocated:
closed form of what `Turret::fire_shots` builds in its loop. -/
def turretShot (t : Turret) (i : ℕ) (idv : Nat) : Shot :=
  { id := idv,
    position := t.position.move_distance (TURRET_RADIUS + SHOT_RADIUS)
      (t.rotation + (i : ℝ) * (Real.pi / 2)),
    bounds := t.bounds,
    velocity := Velocity.new 200 (t.rotation + (i : ℝ) * (Real.pi / 2)),
    damage := 25, health := 3 * 10 }

/-- The shot `Player::fire_shot` builds, with the id it was allocated. -/
def playerShot (p : Player) (idv : Nat) : Shot :=
  { id := idv,
    position := p.position.move_distance (PLAYER_RADIUS + SHOT_RADIUS) p.velocity.heading,
    bounds := p.bounds,
    velocity := { p.velocity with speed := p.velocity.speed + 200 },
    damage := 20, health := 5 * 10 }

/-- Id returned by the n-th call to `get_next_actor_id` in a process
(counter value after n calls, starting from 0). -/
def nthId : ℕ → Nat
  | 0 => 0
  | n + 1 => (get_next_actor_id (nthId n)).1

/-- Specification-side total damage an actor with core `c` receives from
one pass against the actors with cores `cs`: each colliding core deals its
`get_damage` exactly once. -/
def sumDamage (c : Core) (cs : List Core) : ℝ :=
  (cs.map (fun d => if collide c d then d.dmg else 0)).sum

/-- Default core used with `List.getD`. -/
def dummyCore : Core := ⟨0, ⟨0, 0⟩, 0, 0⟩

/-- Default shot used with `List.getD`. -/
def dummyShot : Shot :=
  { id := 0, position := ⟨0, 0⟩, bounds := (0, 0),
    velocity := ⟨0, 0⟩, damage := 0, health := 0 }

/-- Default boxed actor used with `List.getD`. -/
def dummyActor : ActorB := ActorB.shot dummyShot

/-- Specification-side total damage received in one collision pass by the
actor at index `i` of the collection with cores `cs`, facing a player with
core `pc`: the player's damage if they collide, plus, for every other
index `j`, the damage of core `j` if cores `i` and `j` collide — each
exactly once. -/
def lossAt (pc : Core) (cs : List Core) (i : ℕ) : ℝ :=
  (if collide pc (cs.getD i dummyCore) then pc.dmg else 0) +
    ((List.range cs.length).map (fun j =>
      if j = i then 0
      else if collide (cs.getD i dummyCore) (cs.getD j dummyCore) then
        (cs.getD j dummyCore).dmg
      else 0)).sum

/-- Arena bounds used by the concrete examples (the 800x600 arena). -/
def bounds0 : ℝ × ℝ := (800, 600)

/-- Concrete player at the arena centre, id 1. -/
def player0 : Player := (Player.new (Point.new 400 300) bounds0 0).1

/-- Concrete turret at the arena centre, id 2. -/
def turret0 : Turret := (Turret.new (Point.new 400 300) bounds0 1).1

/-- Concrete shot used as a collision witness, id 10, centre (0,0). -/
def shotA : Shot :=
  { id := 10, position := ⟨0, 0⟩, bounds := bounds0,
    velocity := ⟨0, 0⟩, damage := 20, health := 50 }

/-- Concrete shot used as a collision witness, id 11, centre (3,4). -/
def shotB : Shot :=
  { id := 11, position := ⟨3, 4⟩, bounds := bounds0,
    velocity := ⟨0, 0⟩, damage := 25, health := 30 }

/-- Concrete player for the dead-actor-still-damages scenario, id 1 at
(-14,0). -/
def playerW : Player :=
  { id := 1, position := ⟨-14, 0⟩, bounds := bounds0, health := 100,
    velocity := ⟨0, 0⟩, shots := [], current_pressed_key := KeyCode.delete }

/-- Concrete turret for the dead-actor-still-damages scenario, id 2 at
(10,0): it overlaps the player and both shots below. -/
def turretW : Turret :=
  { id := 2, position := ⟨10, 0⟩, bounds := bounds0, health := 100,
    rotation := 0, turn_speed := 1, shots := [], time_since_last_shot := 0 }

/-- Concrete shot at (28,0), id 3: overlaps the turret but not the
player. -/
def shotW1 : Shot :=
  { id := 3, position := ⟨28, 0⟩, bounds := bounds0,
    velocity := ⟨0, 0⟩, damage := 25, health := 30 }

/-- Concrete shot at (10,19), id 4: overlaps the turret but neither the
player nor the other shot. -/
def shotW2 : Shot :=
  { id := 4, position := ⟨10, 19⟩, bounds := bounds0,
    velocity := ⟨0, 0⟩, damage := 25, health := 30 }

/-- Distance between points is symmetric. -/
lemma Point.distance_to_comm (p q : Point) : p.distance_to q = q.distance_to p := by
  unfold Point.distance_to
  congr 1
  ring

/-- Moving a nonnegative distance along a heading puts the new point at
exactly that distance from the start. -/
lemma Point.distance_to_move_distance (p : Point) (d heading : ℝ) (hd : 0 ≤ d) :
    p.distance_to (p.move_distance d heading) = d := by
  unfold Point.distance_to Point.move_distance
  have e : (p.x - (p.x + Real.cos heading * d)) ^ 2
        + (p.y - (p.y + Real.sin heading * d)) ^ 2
      = (Real.cos heading ^ 2 + Real.sin heading ^ 2) * d ^ 2 := by ring
  rw [e, Real.cos_sq_add_sin_sq, one_mul, Real.sqrt_sq hd]

/-- The clamped point lies inside nonnegative bounds. -/
lemma Point.keep_in_bounds_mem (p : Point) (b : ℝ × ℝ)
    (hx : 0 ≤ b.1) (hy : 0 ≤ b.2) :
    0 ≤ (p.keep_in_bounds b).x ∧ (p.keep_in_bounds b).x ≤ b.1 ∧
    0 ≤ (p.keep_in_bounds b).y ∧ (p.keep_in_bounds b).y ≤ b.2 := by
  unfold Point.keep_in_bounds
  dsimp only
  refine ⟨?_, ?_, ?_, ?_⟩ <;>
    · split_ifs <;> first | linarith | (push_neg at *; linarith)

/-- A point 50 past the right edge is clamped to exactly the edge. -/
lemma Point.keep_in_bounds_clamp_x (p : Point) (b : ℝ × ℝ) (h : p.x = b.1 + 50) :
    (p.keep_in_bounds b).x = b.1 := by
  unfold Point.keep_in_bounds
  dsimp only
  rw [if_pos (by rw [h]; linarith)]

/-- Closed form of the id counter: the n-th allocated id is n mod 2^32. -/
lemma nthId_eq (n : ℕ) : nthId n = n % U32_MOD := by
  have hM : U32_MOD = 4294967296 := by norm_num [U32_MOD]
  induction n with
  | zero => simp [nthId]
  | succ n ih =>
    show (get_next_actor_id (nthId n)).1 = (n + 1) % U32_MOD
    rw [ih]
    show (n % U32_MOD + 1) % U32_MOD = (n + 1) % U32_MOD
    rw [hM]
    omega

/-- Closed form of iterating `Shot::update`: the position advances by the
fixed velocity components each tick and the health decays by dt*10 per
tick; all other fields are unchanged. -/
lemma shotTicks_eq (s : Shot) (dt : ℝ) (n : ℕ) :
    shotTicks dt n s =
      { s with
        position :=
          ⟨s.position.x + n * (Real.cos s.velocity.heading * s.velocity.speed * dt),
           s.position.y + n * (Real.sin s.velocity.heading * s.velocity.speed * dt)⟩,
        health := s.health - n * (dt * 10) } := by
  induction n with
  | zero =>
    obtain ⟨i, ⟨px, py⟩, b, v, dm, h⟩ := s
    simp [shotTicks]
  | succ n ih =>
    have step : shotTicks dt (n + 1) s = (shotTicks dt n s).update dt := rfl
    rw [step, ih]
    obtain ⟨i, ⟨px, py⟩, b, v, dm, h⟩ := s
    simp only [Shot.update, Point.move_time, Velocity.get_components,
      Shot.mk.injEq, Point.mk.injEq, eq_self_iff_true, and_true, true_and]
    push_cast
    refine ⟨⟨by ring, by ring⟩, by ring⟩

/-- The id returned by the allocator equals the new counter value. -/
lemma get_next_actor_id_snd (c : Nat) :
    (get_next_actor_id c).2 = (get_next_actor_id c).1 := rfl

/-- Closed form of `Turret::fire_shots`: it appends exactly the four
volley shots, with ids drawn successively from the counter. -/
lemma fire_shots_eq (t : Turret) (c : Nat) :
    t.fire_shots c =
      ({ t with shots := t.shots ++
          [turretShot t 0 (get_next_actor_id c).1,
           turretShot t 1 (get_next_actor_id (get_next_actor_id c).1).1,
           turretShot t 2
             (get_next_actor_id (get_next_actor_id (get_next_actor_id c).1).1).1,
           turretShot t 3
             (get_next_actor_id
               (get_next_actor_id (get_next_actor_id (get_next_actor_id c).1).1).1).1] },
       (get_next_actor_id
         (get_next_actor_id (get_next_actor_id (get_next_actor_id c).1).1).1).1) := by
  have h4 : List.range 4 = [0, 1, 2, 3] := rfl
  rw [Turret.fire_shots, h4]
  simp [Shot.new, turretShot, Turret.get_radius, Velocity.new, get_next_actor_id_snd]

/-- Firing a volley adds exactly 4 pending shots. -/
lemma fire_shots_shots_length (t : Turret) (c : Nat) :
    (t.fire_shots c).1.shots.length = t.shots.length + 4 := by
  rw [fire_shots_eq]
  simp

/-- Branch of `Turret::update` in which a volley fires. -/
lemma turret_update_fire (t : Turret) (dt : ℝ) (c : Nat)
    (h : t.time_since_last_shot > 2) :
    (t.update dt c).1.time_since_last_shot = 0 ∧
    (t.update dt c).1.shots.length = t.shots.length + 4 := by
  unfold Turret.update
  dsimp only
  rw [if_pos h]
  exact ⟨rfl, fire_shots_shots_length _ _⟩

/-- Branch of `Turret::update` in which the timer merely accumulates. -/
lemma turret_update_wait (t : Turret) (dt : ℝ) (c : Nat)
    (h : ¬ t.time_since_last_shot > 2) :
    (t.update dt c).1.time_since_last_shot = t.time_since_last_shot + dt ∧
    (t.update dt c).1.shots = t.shots := by
  unfold Turret.update
  dsimp only
  rw [if_neg h]
  exact ⟨rfl, rfl⟩

/-- Volley cadence invariant: starting from a turret with timer 0 and no
pending shots, after n ticks at dt = 1/60 the timer reads (n mod 122)/60
seconds and 4*(n/122) shots have accumulated — a volley fires on every
122nd tick, the first one on tick 122. -/
lemma turret_ticks_invariant (t : Turret) (c : Nat)
    (h0 : t.time_since_last_shot = 0) (hs : t.shots = []) (n : ℕ) :
    (turretTicks (1/60) n (t, c)).1.time_since_last_shot = ((n % 122 : ℕ) : ℝ) / 60 ∧
    (turretTicks (1/60) n (t, c)).1.shots.length = 4 * (n / 122) := by
  induction n with
  | zero => simp [turretTicks, h0, hs]
  | succ n ih =>
    obtain ⟨iht, ihs⟩ := ih
    have hstep : turretTicks (1/60) (n + 1) (t, c)
        = (turretTicks (1/60) n (t, c)).1.update (1/60)
            (turretTicks (1/60) n (t, c)).2 := rfl
    by_cases hk : n % 122 = 121
    · have hgt : (turretTicks (1/60) n (t, c)).1.time_since_last_shot > 2 := by
        rw [iht, hk]
        norm_num
      have h2 := turret_update_fire (turretTicks (1/60) n (t, c)).1 (1/60)
        (turretTicks (1/60) n (t, c)).2 hgt
      rw [hstep]
      refine ⟨?_, ?_⟩
      · rw [h2.1]
        have he : (n + 1) % 122 = 0 := by omega
        rw [he]
        norm_num
      · rw [h2.2, ihs]
        have he : (n + 1) / 122 = n / 122 + 1 := by omega
        rw [he]
        ring
    · have hk2 : n % 122 ≤ 120 := by omega
      have hle : ¬ (turretTicks (1/60) n (t, c)).1.time_since_last_shot > 2 := by
        rw [iht, not_lt]
        have hc : ((n % 122 : ℕ) : ℝ) ≤ 120 := by exact_mod_cast hk2
        linarith
      have h2 := turret_update_wait (turretTicks (1/60) n (t, c)).1 (1/60)
        (turretTicks (1/60) n (t, c)).2 hle
      rw [hstep]
      refine ⟨?_, ?_⟩
      · rw [h2.1, iht]
        have he : (n + 1) % 122 = n % 122 + 1 := by omega
        rw [he]
        push_cast
        ring
      · rw [h2.2, ihs]
        have he : (n + 1) / 122 = n / 122 := by omega
        rw [he]

/-- C1 (amended): a Turret whose fire timer is 0 and whose pending-shot
list is empty (as a freshly created Turret is, and as it again is right
after a volley tick followed by a collect) fires exactly one 4-shot volley
every 122 ticks at dt = 1/60 — i.e. every 122/60 ≈ 2.033 simulated
seconds, not every 2.0 seconds: after n ticks, collect_shots() returns
4*(n/122) shots (so 0 shots after 120 ticks = 2.0 s, and the first 4 shots
only once tick 122 has run), and leaves the pending list empty. -/
theorem turret_volley_cadence (t : Turret) (c : Nat)
    (h0 : t.time_since_last_shot = 0) (hs : t.shots = []) (n : ℕ) :
    ((turretTicks (1/60) n (t, c)).1.collect_shots).1.length = 4 * (n / 122) ∧
    ((turretTicks (1/60) n (t, c)).1.collect_shots).2.shots = [] :=
  ⟨(turret_ticks_invariant t c h0 hs n).2, rfl⟩

/-- Witness for C1 (amended) at a concrete fresh turret: after 122 ticks
collect_shots() returns exactly 4 shots. -/
theorem turret_volley_cadence_witness :
    ((turretTicks (1/60) 122 (turret0, 2)).1.collect_shots).1.length = 4 := by
  have h := (turret_volley_cadence turret0 2 rfl rfl 122).1
  norm_num at h
  exact h

/-- C1 counterexample: after exactly 2.0 simulated seconds of ticks at
dt = 1/60 (120 ticks) a fresh turret has fired no volley yet, so
collect_shots() returns 0 shots, not 4 — the first volley only fires on
tick 122, because the timer must strictly exceed 2.0 before firing and the
firing tick itself does not accumulate dt. -/
theorem turret_no_volley_at_two_seconds :
    ((turretTicks (1/60) 120 (turret0, 2)).1.collect_shots).1.length = 0 ∧
    ((turretTicks (1/60) 120 (turret0, 2)).1.collect_shots).1.length ≠ 4 := by
  have h := (turret_ticks_invariant turret0 2 rfl rfl 120).2
  have hd : (120 : ℕ) / 122 = 0 := Nat.div_eq_of_lt (by norm_num)
  rw [hd, Nat.mul_zero] at h
  have h2 : ((turretTicks (1/60) 120 (turret0, 2)).1.collect_shots).1.length = 0 := h
  exact ⟨h2, by rw [h2]; norm_num⟩

/-- C4: check_for_collision holds iff the centre distance is strictly
below (radius sum - 0.1) and the ids differ; for distinct ids the outcome
is symmetric in the two call directions. -/
theorem check_for_collision_char (a b : ActorB) :
    (a.check_for_collision b ↔
      a.get_position.distance_to b.get_position
          < a.get_radius + b.get_radius - 0.1 ∧ a.get_id ≠ b.get_id) ∧
    (a.get_id ≠ b.get_id →
      (a.check_for_collision b ↔ b.check_for_collision a)) := by
  refine ⟨Iff.rfl, fun h => ?_⟩
  unfold ActorB.check_for_collision
  rw [Point.distance_to_comm, add_comm a.get_radius b.get_radius, ne_comm]

/-- Witness for C4 at two concrete shots with distinct ids. -/
theorem check_for_collision_char_witness :
    ((ActorB.shot shotA).check_for_collision (ActorB.shot shotB) ↔
      (ActorB.shot shotA).get_position.distance_to (ActorB.shot shotB).get_position
          < (ActorB.shot shotA).get_radius + (ActorB.shot shotB).get_radius - 0.1
        ∧ (ActorB.shot shotA).get_id ≠ (ActorB.shot shotB).get_id) ∧
    ((ActorB.shot shotA).check_for_collision (ActorB.shot shotB) ↔
      (ActorB.shot shotB).check_for_collision (ActorB.shot shotA)) :=
  ⟨(check_for_collision_char (ActorB.shot shotA) (ActorB.shot shotB)).1,
   (check_for_collision_char (ActorB.shot shotA) (ActorB.shot shotB)).2
     (by norm_num [ActorB.get_id, shotA, shotB])⟩

/-- C7: after Player::update the position lies inside the (nonnegative)
bounds — clamped, never wrapped — and a tick whose motion would put the
player at x = maxX + 50 ends with x exactly maxX. -/
theorem player_update_clamps (p : Player) (dt : ℝ)
    (hx : 0 ≤ p.bounds.1) (hy : 0 ≤ p.bounds.2) :
    (0 ≤ (p.update dt).position.x ∧ (p.update dt).position.x ≤ p.bounds.1 ∧
     0 ≤ (p.update dt).position.y ∧ (p.update dt).position.y ≤ p.bounds.2) ∧
    ((p.moved_position dt).x = p.bounds.1 + 50 →
      (p.update dt).position.x = p.bounds.1) := by
  have hm := Point.keep_in_bounds_mem (p.moved_position dt) p.bounds hx hy
  have hpos : (p.update dt).position
      = (p.moved_position dt).keep_in_bounds p.bounds := rfl
  refine ⟨?_, fun h => ?_⟩
  · rw [hpos]
    exact hm
  · rw [hpos]
    exact Point.keep_in_bounds_clamp_x _ _ h

/-- Witness for C7 at the concrete centred player with dt = 1/60. -/
theorem player_update_clamps_witness :
    (0 ≤ (player0.update (1/60)).position.x ∧
     (player0.update (1/60)).position.x ≤ player0.bounds.1 ∧
     0 ≤ (player0.update (1/60)).position.y ∧
     (player0.update (1/60)).position.y ≤ player0.bounds.2) ∧
    ((player0.moved_position (1/60)).x = player0.bounds.1 + 50 →
      (player0.update (1/60)).position.x = player0.bounds.1) :=
  player_update_clamps player0 (1/60)
    (by norm_num [player0, Player.new, bounds0, get_next_actor_id])
    (by norm_num [player0, Player.new, bounds0, get_next_actor_id])

/-- C8 (amended): actor ids are strictly increasing across a run while
fewer than 2^32 ids have been allocated — the m-th allocated id is smaller
than the n-th whenever m < n < 2^32 — so they are unique up to that point;
at the 2^32-th allocation the u32 counter wraps and ids repeat. -/
theorem actor_ids_monotone (m n : ℕ) (h1 : m < n) (h2 : n < U32_MOD) :
    nthId m < nthId n := by
  rw [nthId_eq, nthId_eq, Nat.mod_eq_of_lt (lt_trans h1 h2), Nat.mod_eq_of_lt h2]
  exact h1

/-- Witness for C8 (amended): the 3rd id is below the 7th. -/
theorem actor_ids_monotone_witness : nthId 3 < nthId 7 :=
  actor_ids_monotone 3 7 (by norm_num) (by norm_num [U32_MOD])

/-- C8 counterexample: the 2^32-th allocation wraps the u32 counter to 0,
an id not greater than the previously assigned id 2^32 - 1 (and equal to
ids assigned earlier in the run), so ids are not strictly increasing and
not process-lifetime unique in general. -/
theorem actor_ids_wrap :
    nthId (2 ^ 32 - 1) = 2 ^ 32 - 1 ∧ nthId (2 ^ 32) = 0 ∧
    ¬ nthId (2 ^ 32 - 1) < nthId (2 ^ 32) := by
  have h1 : nthId (2 ^ 32 - 1) = 2 ^ 32 - 1 := by
    rw [nthId_eq]
    exact Nat.mod_eq_of_lt (by norm_num [U32_MOD])
  have h2 : nthId (2 ^ 32) = 0 := by
    rw [nthId_eq]
    simp [U32_MOD]
  refine ⟨h1, h2, ?_⟩
  rw [h1, h2]
  exact Nat.not_lt_zero _

/-- C5: a Shot created with lifespan L starts with health L*10, loses
dt*10 health per tick, and — provided it has stayed in bounds — is dead
exactly once n*dt reaches L, i.e. after exactly L seconds of accumulated
ticks (to within the one tick in which n*dt crosses L). -/
theorem shot_decay (position : Point) (bounds : ℝ × ℝ) (velocity : Velocity)
    (damage lifespan dt : ℝ) (ctr : Nat) (n : ℕ)
    (hin : ¬ (shotTicks dt n
        (Shot.new position bounds velocity damage lifespan ctr).1).position.is_out_of_bounds
        (shotTicks dt n
          (Shot.new position bounds velocity damage lifespan ctr).1).bounds) :
    (Shot.new position bounds velocity damage lifespan ctr).1.health = lifespan * 10 ∧
    (shotTicks dt n (Shot.new position bounds velocity damage lifespan ctr).1).health
        = lifespan * 10 - n * (dt * 10) ∧
    ((shotTicks dt n (Shot.new position bounds velocity damage lifespan ctr).1).is_dead ↔
      lifespan ≤ n * dt) := by
  have hh : (shotTicks dt n (Shot.new position bounds velocity damage lifespan ctr).1).health
      = lifespan * 10 - n * (dt * 10) := by
    rw [shotTicks_eq]
    rfl
  refine ⟨rfl, hh, ?_⟩
  unfold Shot.is_dead
  rw [hh]
  constructor
  · rintro (hd | hout)
    · nlinarith
    · exact absurd hout hin
  · intro hl
    left
    nlinarith

/-- Witness for C5: a motionless in-bounds shot of lifespan 3 is dead
after 180 ticks of dt = 1/60 (exactly 3 seconds). -/
theorem shot_decay_witness :
    (shotTicks (1/60) 180
      (Shot.new (Point.new 1 1) (10, 10) (Velocity.new 0 0) 7 3 0).1).is_dead := by
  have hin : ¬ (shotTicks (1/60) 180
      (Shot.new (Point.new 1 1) (10, 10) (Velocity.new 0 0) 7 3 0).1).position.is_out_of_bounds
      (shotTicks (1/60) 180
        (Shot.new (Point.new 1 1) (10, 10) (Velocity.new 0 0) 7 3 0).1).bounds := by
    rw [shotTicks_eq]
    norm_num [Shot.new, get_next_actor_id, Point.new, Velocity.new,
      Point.is_out_of_bounds]
  exact ((shot_decay (Point.new 1 1) (10, 10) (Velocity.new 0 0) 7 3 (1/60) 0 180
    hin).2.2).mpr (by norm_num)

/-- Closed form of `Player::fire_shot`: it appends exactly one shot. -/
lemma fire_shot_eq (p : Player) (c : Nat) :
    p.fire_shot c =
      ({ p with shots := p.shots ++ [playerShot p (get_next_actor_id c).1] },
       (get_next_actor_id c).1) := by
  simp [Player.fire_shot, Shot.new, playerShot, Player.get_radius,
    get_next_actor_id_snd]

/-- A turret volley shot spawns strictly outside the collision threshold
of its own turret. -/
lemma turret_shot_no_collision (t : Turret) (i : ℕ) (idv : Nat) :
    ¬ (ActorB.turret t).check_for_collision (ActorB.shot (turretShot t i idv)) := by
  rintro ⟨hlt, -⟩
  have hd : t.position.distance_to (turretShot t i idv).position
      = TURRET_RADIUS + SHOT_RADIUS :=
    Point.distance_to_move_distance _ _ _ (by norm_num [TURRET_RADIUS, SHOT_RADIUS])
  have hlt2 : t.position.distance_to (turretShot t i idv).position
      < TURRET_RADIUS + SHOT_RADIUS - 0.1 := hlt
  rw [hd] at hlt2
  linarith

/-- The player's fired shot spawns strictly outside the collision
threshold of the player. -/
lemma player_shot_no_collision_aux (p : Player) (idv : Nat) :
    ¬ p.check_for_collision (ActorB.shot (playerShot p idv)) := by
  rintro ⟨hlt, -⟩
  have hd : p.position.distance_to (playerShot p idv).position
      = PLAYER_RADIUS + SHOT_RADIUS :=
    Point.distance_to_move_distance _ _ _ (by norm_num [PLAYER_RADIUS, SHOT_RADIUS])
  have hlt2 : p.position.distance_to (playerShot p idv).position
      < PLAYER_RADIUS + SHOT_RADIUS - 0.1 := hlt
  rw [hd] at hlt2
  linarith

/-- C6: fire_shots() on a turret with no pending shots emits exactly 4
shots with headings rotation + i*90 degrees for i = 0..3, each positioned
at distance TURRET_RADIUS + SHOT_RADIUS = 20 from the turret centre along
its own heading, speed 200, damage 25 and initial health 3*10 = 30
(lifespan 3.0 s). -/
theorem turret_fire_shots_spec (t : Turret) (c : Nat) (hs : t.shots = []) :
    TURRET_RADIUS + SHOT_RADIUS = 20 ∧
    (t.fire_shots c).1.shots.length = 4 ∧
    ∀ i : ℕ, i < 4 →
      ((t.fire_shots c).1.shots.getD i dummyShot).velocity.speed = 200 ∧
      ((t.fire_shots c).1.shots.getD i dummyShot).velocity.heading
          = t.rotation + (i : ℝ) * (Real.pi / 2) ∧
      ((t.fire_shots c).1.shots.getD i dummyShot).position
          = t.position.move_distance (TURRET_RADIUS + SHOT_RADIUS)
              (t.rotation + (i : ℝ) * (Real.pi / 2)) ∧
      t.position.distance_to ((t.fire_shots c).1.shots.getD i dummyShot).position
          = TURRET_RADIUS + SHOT_RADIUS ∧
      ((t.fire_shots c).1.shots.getD i dummyShot).damage = 25 ∧
      ((t.fire_shots c).1.shots.getD i dummyShot).health = 30 := by
  rw [fire_shots_eq t c, hs]
  refine ⟨by norm_num [TURRET_RADIUS, SHOT_RADIUS], by simp, fun i hi => ?_⟩
  have hd : 0 ≤ TURRET_RADIUS + SHOT_RADIUS := by norm_num [TURRET_RADIUS, SHOT_RADIUS]
  interval_cases i <;>
    exact ⟨rfl, rfl, rfl, Point.distance_to_move_distance _ _ _ hd, rfl,
      show (3 : ℝ) * 10 = 30 by norm_num⟩

/-- Witness for C6 at the concrete fresh turret, shot index 3. -/
theorem turret_fire_shots_spec_witness :
    (turret0.fire_shots 2).1.shots.length = 4 ∧
    ((turret0.fire_shots 2).1.shots.getD 3 dummyShot).velocity.speed = 200 ∧
    ((turret0.fire_shots 2).1.shots.getD 3 dummyShot).health = 30 := by
  have h := turret_fire_shots_spec turret0 2 rfl
  exact ⟨h.2.1, (h.2.2 3 (by norm_num)).1, (h.2.2 3 (by norm_num)).2.2.2.2.2⟩

/-- C9: a freshly spawned shot never collides with its spawner at the
moment of spawning: every shot of a turret volley, and the player's fired
shot, is placed exactly (spawner radius + shot radius) away from the
spawner centre, which lies outside the (spawner radius + shot radius -
0.1) collision threshold, so check_for_collision is false before any
movement. -/
theorem fresh_shot_no_spawner_collision (t : Turret) (p : Player) (c1 c2 : Nat)
    (ht : t.shots = []) (hp : p.shots = []) :
    (∀ sh ∈ (t.fire_shots c1).1.shots,
        ¬ (ActorB.turret t).check_for_collision (ActorB.shot sh)) ∧
    (∀ sh ∈ (p.fire_shot c2).1.shots,
        ¬ p.check_for_collision (ActorB.shot sh)) := by
  constructor
  · intro sh hsh
    rw [fire_shots_eq t c1] at hsh
    simp only [ht, List.nil_append, List.mem_cons, List.not_mem_nil, or_false] at hsh
    rcases hsh with rfl | rfl | rfl | rfl <;> exact turret_shot_no_collision t _ _
  · intro sh hsh
    rw [fire_shot_eq p c2] at hsh
    simp only [hp, List.nil_append, List.mem_cons, List.not_mem_nil, or_false] at hsh
    rcases hsh with rfl
    exact player_shot_no_collision_aux p _

/-- Witness for C9: the first shot of the concrete turret's volley does
not collide with the turret that fired it. -/
theorem fresh_shot_no_spawner_collision_witness :
    ¬ (ActorB.turret turret0).check_for_collision
        (ActorB.shot ((turret0.fire_shots 2).1.shots.getD 0 dummyShot)) := by
  refine (fresh_shot_no_spawner_collision turret0 player0 2 0 rfl rfl).1 _ ?_
  have hlen : 0 < (turret0.fire_shots 2).1.shots.length := by
    rw [fire_shots_shots_length]
    norm_num
  rw [List.getD_eq_getElem _ _ hlen]
  exact List.getElem_mem hlen

/-- Damage does not change a boxed actor's collision core. -/
lemma ActorB.do_damage_core (a : ActorB) (d : ℝ) : (a.do_damage d).core = a.core := by
  cases a <;> rfl

/-- Damage subtracts exactly its amount from a boxed actor's health. -/
lemma ActorB.do_damage_health (a : ActorB) (d : ℝ) :
    (a.do_damage d).health = a.health - d := by
  cases a <;> rfl

/-- The damage an actor deals is the `dmg` field of its core. -/
lemma ActorB.get_damage_eq (a : ActorB) : a.get_damage = a.core.dmg := by
  cases a <;> rfl

/-- Actor-to-actor collision test in terms of cores. -/
lemma actor_check_iff (a b : ActorB) :
    a.check_for_collision b ↔ collide a.core b.core := by
  cases a <;> cases b <;> exact Iff.rfl

/-- Player-to-actor collision test in terms of cores. -/
lemma player_check_iff (p : Player) (a : ActorB) :
    p.check_for_collision a ↔ collide p.core a.core := by
  cases a <;> exact Iff.rfl

/-- The collision predicate is symmetric. -/
lemma collide_comm (c d : Core) : collide c d ↔ collide d c := by
  unfold collide
  rw [Point.distance_to_comm, add_comm c.radius d.radius, ne_comm]

/-- The player side of one player-versus-actor test keeps its core. -/
lemma playerVs_fst_core (p : Player) (a : ActorB) : (playerVs p a).1.core = p.core := by
  unfold playerVs
  split <;> rfl

/-- The player side of one player-versus-actor test loses the actor's
damage exactly when they collide. -/
lemma playerVs_fst_health (p : Player) (a : ActorB) :
    (playerVs p a).1.health
      = p.health - (if collide p.core a.core then a.core.dmg else 0) := by
  unfold playerVs
  by_cases h : p.check_for_collision a
  · rw [if_pos h, if_pos ((player_check_iff p a).mp h)]
    show p.health - a.get_damage = p.health - a.core.dmg
    rw [ActorB.get_damage_eq]
  · rw [if_neg h, if_neg (fun hc => h ((player_check_iff p a).mpr hc)), sub_zero]

/-- The actor side of one player-versus-actor test keeps its core. -/
lemma playerVs_snd_core (p : Player) (a : ActorB) : (playerVs p a).2.core = a.core := by
  unfold playerVs
  split
  · exact ActorB.do_damage_core _ _
  · rfl

/-- The actor side of one player-versus-actor test loses the player's
damage exactly when they collide. -/
lemma playerVs_snd_health (p : Player) (a : ActorB) :
    (playerVs p a).2.health
      = a.health - (if collide p.core a.core then p.core.dmg else 0) := by
  unfold playerVs
  by_cases h : p.check_for_collision a
  · rw [if_pos h, if_pos ((player_check_iff p a).mp h), ActorB.do_damage_health]
    rfl
  · rw [if_neg h, if_neg (fun hc => h ((player_check_iff p a).mpr hc)), sub_zero]

/-- First component of one actor-versus-actor test. -/
lemma actorVs_fst_core (a b : ActorB) : (actorVs a b).1.core = a.core := by
  unfold actorVs
  split
  · exact ActorB.do_damage_core _ _
  · rfl

/-- Health of the first component of one actor-versus-actor test. -/
lemma actorVs_fst_health (a b : ActorB) :
    (actorVs a b).1.health
      = a.health - (if collide a.core b.core then b.core.dmg else 0) := by
  unfold actorVs
  by_cases h : a.check_for_collision b
  · rw [if_pos h, if_pos ((actor_check_iff a b).mp h), ActorB.do_damage_health,
      ActorB.get_damage_eq]
  · rw [if_neg h, if_neg (fun hc => h ((actor_check_iff a b).mpr hc)), sub_zero]

/-- Second component of one actor-versus-actor test, in closed form. -/
lemma actorVs_snd_eq (a b : ActorB) :
    (actorVs a b).2 = if collide a.core b.core then b.do_damage a.core.dmg else b := by
  unfold actorVs
  by_cases h : collide a.core b.core
  · rw [if_pos ((actor_check_iff a b).mpr h), if_pos h]
    show b.do_damage a.get_damage = b.do_damage a.core.dmg
    rw [ActorB.get_damage_eq]
  · rw [if_neg (fun hc => h ((actor_check_iff a b).mp hc)), if_neg h]

/-- Unfolding `sumDamage` over a head core. -/
lemma sumDamage_cons (c d : Core) (cs : List Core) :
    sumDamage c (d :: cs) = (if collide c d then d.dmg else 0) + sumDamage c cs := by
  simp [sumDamage]

/-- Characterisation of the inner j-loop: the lead actor keeps its core
and loses, exactly once per colliding tail actor, that actor's damage; the
tail actors each lose the lead actor's damage exactly when colliding with
it. -/
lemma actorVsList_spec (l : List ActorB) (a : ActorB) :
    (actorVsList a l).1.core = a.core ∧
    (actorVsList a l).1.health = a.health - sumDamage a.core (l.map ActorB.core) ∧
    (actorVsList a l).2
      = l.map (fun b => if collide a.core b.core then b.do_damage a.core.dmg else b) := by
  induction l generalizing a with
  | nil =>
    refine ⟨rfl, ?_, rfl⟩
    simp [actorVsList, sumDamage]
  | cons b rest ih =>
    obtain ⟨ih1, ih2, ih3⟩ := ih (actorVs a b).1
    have hcore : (actorVs a b).1.core = a.core := actorVs_fst_core a b
    have hstep : actorVsList a (b :: rest)
        = ((actorVsList (actorVs a b).1 rest).1,
           (actorVs a b).2 :: (actorVsList (actorVs a b).1 rest).2) := rfl
    rw [hstep]
    refine ⟨?_, ?_, ?_⟩
    · rw [ih1, hcore]
    · rw [ih2, hcore, actorVs_fst_health, List.map_cons, sumDamage_cons, sub_sub]
    · rw [ih3, hcore, actorVs_snd_eq, List.map_cons]

/-- Applying the per-actor conditional damage does not change the list of
cores. -/
lemma damaged_map_core (c : Core) (l : List ActorB) :
    (l.map (fun b => if collide c b.core then b.do_damage c.dmg else b)).map ActorB.core
      = l.map ActorB.core := by
  induction l with
  | nil => rfl
  | cons b rest ih =>
    simp only [List.map_cons, ih, List.cons.injEq, and_true]
    by_cases h : collide c b.core
    · rw [if_pos h, ActorB.do_damage_core]
    · rw [if_neg h]

/-- `getD` through `map`, below the length. -/
lemma List.getD_map_lt {α β : Type} (f : α → β) (l : List α) (i : ℕ)
    (h : i < l.length) (d : α) (e : β) :
    (l.map f).getD i e = f (l.getD i d) := by
  induction l generalizing i with
  | nil => simp at h
  | cons a r ih =>
    cases i with
    | zero => rfl
    | succ j =>
      have hj : j < r.length := by simpa using h
      simpa using ih j hj

/-- Splitting a sum over `range (n+1)` into the 0 term and shifted terms. -/
lemma range_sum_shift (f : ℕ → ℝ) (n : ℕ) :
    ((List.range (n + 1)).map f).sum
      = f 0 + ((List.range n).map (fun j => f (j + 1))).sum := by
  rw [List.range_succ_eq_map, List.map_cons, List.sum_cons, List.map_map]
  rfl

/-- `sumDamage` written as a sum over indices. -/
lemma sumDamage_eq_range (c : Core) (cs : List Core) :
    sumDamage c cs
      = ((List.range cs.length).map (fun j =>
          if collide c (cs.getD j dummyCore) then (cs.getD j dummyCore).dmg else 0)).sum := by
  induction cs with
  | nil => simp [sumDamage]
  | cons d cs ih =>
    rw [sumDamage_cons, List.length_cons, range_sum_shift]
    simp only [List.getD_cons_zero, List.getD_cons_succ]
    rw [ih]

/-- `lossAt` at the head of the list. -/
lemma lossAt_zero (pc d0 : Core) (cs : List Core) :
    lossAt pc (d0 :: cs) 0
      = (if collide pc d0 then pc.dmg else 0) + sumDamage d0 cs := by
  unfold lossAt
  rw [List.length_cons, range_sum_shift, sumDamage_eq_range d0 cs]
  simp [Nat.succ_ne_zero]

/-- `lossAt` at a tail index: the head contributes its damage when
colliding with the indexed actor, the rest is `lossAt` in the tail. -/
lemma lossAt_succ (pc d0 : Core) (cs : List Core) (i : ℕ) :
    lossAt pc (d0 :: cs) (i + 1)
      = (if collide (cs.getD i dummyCore) d0 then d0.dmg else 0)
        + lossAt pc cs i := by
  unfold lossAt
  rw [List.length_cons, range_sum_shift]
  simp only [List.getD_cons_succ, List.getD_cons_zero, Nat.add_right_cancel_iff]
  rw [if_neg (show ¬ (0 : ℕ) = i + 1 by omega)]
  ring

/-- Equation of `collisionLoop` on the empty collection. -/
lemma collisionLoop_nil (p : Player) : collisionLoop p [] = (p, []) := by
  simp [collisionLoop]

/-- Equation of `collisionLoop` on a nonempty collection. -/
lemma collisionLoop_cons (p : Player) (a : ActorB) (rest : List ActorB) :
    collisionLoop p (a :: rest)
      = ((collisionLoop (playerVs p a).1 (actorVsList (playerVs p a).2 rest).2).1,
         (actorVsList (playerVs p a).2 rest).1 ::
           (collisionLoop (playerVs p a).1 (actorVsList (playerVs p a).2 rest).2).2) := by
  simp [collisionLoop]

/-- Characterisation of one collision pass: cores (ids, positions, radii,
damage values) are unchanged; the player loses, exactly once for each
actor colliding with it, that actor's damage; and the actor at index i
loses the player's damage (when colliding with the player) plus, exactly
once for each other index j whose actor collides with it, that actor's
damage. -/
lemma collisionLoop_spec (l : List ActorB) (p : Player) :
    (collisionLoop p l).1.core = p.core ∧
    (collisionLoop p l).1.health = p.health - sumDamage p.core (l.map ActorB.core) ∧
    (collisionLoop p l).2.map ActorB.core = l.map ActorB.core ∧
    ∀ i : ℕ, i < l.length →
      ((collisionLoop p l).2.getD i dummyActor).health
        = (l.getD i dummyActor).health - lossAt p.core (l.map ActorB.core) i := by
  suffices h : ∀ (n : ℕ) (l : List ActorB), l.length = n → ∀ p : Player,
      (collisionLoop p l).1.core = p.core ∧
      (collisionLoop p l).1.health = p.health - sumDamage p.core (l.map ActorB.core) ∧
      (collisionLoop p l).2.map ActorB.core = l.map ActorB.core ∧
      ∀ i : ℕ, i < l.length →
        ((collisionLoop p l).2.getD i dummyActor).health
          = (l.getD i dummyActor).health - lossAt p.core (l.map ActorB.core) i by
    exact h l.length l rfl p
  intro n
  induction n with
  | zero =>
    intro l hl p
    have hnil : l = [] := List.length_eq_zero.mp hl
    subst hnil
    rw [collisionLoop_nil]
    exact ⟨rfl, by simp [sumDamage], rfl, fun i hi => absurd hi (by simp)⟩
  | succ n ihn =>
    intro l hl p
    cases l with
    | nil => exact absurd hl (by simp)
    | cons a rest =>
      have hrest : rest.length = n := by simpa using hl
      obtain ⟨hA1core, hA1health, hA2⟩ := actorVsList_spec rest (playerVs p a).2
      rw [playerVs_snd_core] at hA1core hA1health hA2
      have hA2core : (actorVsList (playerVs p a).2 rest).2.map ActorB.core
          = rest.map ActorB.core := by
        rw [hA2, damaged_map_core]
      have hA2len : (actorVsList (playerVs p a).2 rest).2.length = rest.length := by
        have hc := congrArg List.length hA2core
        simpa using hc
      obtain ⟨ih1, ih2, ih3, ih4⟩ :=
        ihn (actorVsList (playerVs p a).2 rest).2 (by rw [hA2len]; exact hrest)
          (playerVs p a).1
      rw [collisionLoop_cons]
      refine ⟨?_, ?_, ?_, ?_⟩
      · rw [ih1, playerVs_fst_core]
      · rw [ih2, hA2core, playerVs_fst_core, playerVs_fst_health, List.map_cons,
          sumDamage_cons, sub_sub]
      · simp only [List.map_cons]
        rw [ih3, hA1core, hA2core]
      · intro i hi
        cases i with
        | zero =>
          simp only [List.getD_cons_zero, List.map_cons]
          rw [hA1health, playerVs_snd_health, lossAt_zero, sub_sub]
        | succ j =>
          have hj : j < rest.length := by simpa using hi
          have hjA : j < (actorVsList (playerVs p a).2 rest).2.length := by
            rw [hA2len]
            exact hj
          simp only [List.getD_cons_succ, List.map_cons]
          rw [ih4 j hjA]
          have hgd : (actorVsList (playerVs p a).2 rest).2.getD j dummyActor
              = if collide a.core (rest.getD j dummyActor).core then
                  (rest.getD j dummyActor).do_damage a.core.dmg
                else rest.getD j dummyActor := by
            rw [hA2]
            exact List.getD_map_lt _ rest j hj dummyActor dummyActor
          rw [hgd]
          have hhealth : (if collide a.core (rest.getD j dummyActor).core then
                  (rest.getD j dummyActor).do_damage a.core.dmg
                else rest.getD j dummyActor).health
              = (rest.getD j dummyActor).health
                - (if collide a.core (rest.getD j dummyActor).core then a.core.dmg
                   else 0) := by
            by_cases h : collide a.core (rest.getD j dummyActor).core
            · rw [if_pos h, if_pos h, ActorB.do_damage_health]
            · rw [if_neg h, if_neg h, sub_zero]
          rw [hhealth, playerVs_fst_core, hA2core, lossAt_succ]
          have hcoreget : (rest.map ActorB.core).getD j dummyCore
              = (rest.getD j dummyActor).core :=
            List.getD_map_lt ActorB.core rest j hj dummyActor dummyCore
          rw [hcoreget, sub_sub,
            if_congr (collide_comm a.core (rest.getD j dummyActor).core) rfl rfl]

/-- C3: in one pass of MainState::handle_collisions every colliding pair
exchanges damage exactly once: ids, positions, radii and damage values are
unchanged, the player loses the damage of each colliding actor exactly
once, and the actor at each index i loses the player's damage when
colliding with the player plus the damage of each other colliding actor
exactly once (the spec-side sums `sumDamage` and `lossAt` count each
unordered pair once); no actor is tested against itself and no pair is
counted twice. -/
theorem handle_collisions_exactly_once (s : MainState) :
    s.handle_collisions.player.core = s.player.core ∧
    s.handle_collisions.player.health
      = s.player.health - sumDamage s.player.core (s.actors.map ActorB.core) ∧
    s.handle_collisions.actors.map ActorB.core = s.actors.map ActorB.core ∧
    ∀ i : ℕ, i < s.actors.length →
      (s.handle_collisions.actors.getD i dummyActor).health
        = (s.actors.getD i dummyActor).health
          - lossAt s.player.core (s.actors.map ActorB.core) i := by
  have h := collisionLoop_spec s.actors s.player
  exact ⟨h.1, h.2.1, h.2.2.1, h.2.2.2⟩

/-- Witness for C3 at a concrete one-turret world, index 0. -/
theorem handle_collisions_exactly_once_witness :
    (MainState.mk player0 [ActorB.turret turret0]).handle_collisions.player.health
        = player0.health
          - sumDamage player0.core ([ActorB.turret turret0].map ActorB.core) ∧
    ((MainState.mk player0
        [ActorB.turret turret0]).handle_collisions.actors.getD 0 dummyActor).health
        = ([ActorB.turret turret0].getD 0 dummyActor).health
          - lossAt player0.core ([ActorB.turret turret0].map ActorB.core) 0 :=
  ⟨(handle_collisions_exactly_once (MainState.mk player0 [ActorB.turret turret0])).2.1,
   (handle_collisions_exactly_once
      (MainState.mk player0 [ActorB.turret turret0])).2.2.2 0 (by norm_num)⟩

/-- One collision pass on a world holding exactly one turret that overlaps
the player: both sides take one full damage exchange. -/
lemma singleton_turret_pass (p : Player) (t : Turret)
    (hcol : p.check_for_collision (ActorB.turret t)) :
    (MainState.mk p [ActorB.turret t]).handle_collisions
      = MainState.mk (p.do_damage (ActorB.turret t).get_damage)
          [(ActorB.turret t).do_damage p.get_damage] := by
  have hpv : playerVs p (ActorB.turret t)
      = (p.do_damage (ActorB.turret t).get_damage,
         (ActorB.turret t).do_damage p.get_damage) := by
    unfold playerVs
    rw [if_pos hcol]
  show MainState.mk (collisionLoop p [ActorB.turret t]).1
      (collisionLoop p [ActorB.turret t]).2
    = MainState.mk (p.do_damage (ActorB.turret t).get_damage)
        [(ActorB.turret t).do_damage p.get_damage]
  rw [collisionLoop_cons, hpv]
  simp only [actorVsList]
  rw [collisionLoop_nil]

/-- The concrete centred player and turret overlap and have distinct ids,
so they collide. -/
lemma player0_turret0_collide :
    player0.check_for_collision (ActorB.turret turret0) := by
  have hz : player0.position.distance_to turret0.position = 0 := by
    show Real.sqrt ((player0.position.x - turret0.position.x) ^ 2
        + (player0.position.y - turret0.position.y) ^ 2) = 0
    norm_num [player0, turret0, Player.new, Turret.new, Point.new, Real.sqrt_zero]
  constructor
  · show player0.position.distance_to turret0.position
        < PLAYER_RADIUS + TURRET_RADIUS - 0.1
    rw [hz]
    norm_num [PLAYER_RADIUS, TURRET_RADIUS]
  · show player0.id ≠ turret0.id
    norm_num [player0, turret0, Player.new, Turret.new, get_next_actor_id, U32_MOD]

/-- C2 (amended): if the player and a lone turret both have health 100 and
their centres are within (player radius + turret radius - 0.1), then after
one collision pass each has lost exactly the other's get_damage() (100),
both are dead, and the next cull step removes the turret from the actor
collection — but not the player, which is stored outside the collection
and survives the cull (dead, triggering game termination instead). -/
theorem player_turret_mutual_kill (p : Player) (t : Turret)
    (hp : p.health = 100) (ht : t.health = 100)
    (hd : p.position.distance_to t.position < PLAYER_RADIUS + TURRET_RADIUS - 0.1)
    (hid : p.id ≠ t.id) :
    (MainState.mk p [ActorB.turret t]).handle_collisions.player.health
        = p.health - t.get_damage ∧
    ((MainState.mk p
        [ActorB.turret t]).handle_collisions.actors.getD 0 dummyActor).health
        = t.health - p.get_damage ∧
    (MainState.mk p [ActorB.turret t]).handle_collisions.player.is_dead ∧
    (∀ a ∈ (MainState.mk p [ActorB.turret t]).handle_collisions.actors, a.is_dead) ∧
    (MainState.mk p [ActorB.turret t]).handle_collisions.remove_dead.actors = [] ∧
    (MainState.mk p [ActorB.turret t]).handle_collisions.remove_dead.player
        = (MainState.mk p [ActorB.turret t]).handle_collisions.player := by
  have hcol : p.check_for_collision (ActorB.turret t) := ⟨hd, hid⟩
  rw [singleton_turret_pass p t hcol]
  have hdeadt : ((ActorB.turret t).do_damage p.get_damage).is_dead := by
    show t.health - p.get_damage ≤ 0
    rw [ht]
    show (100 : ℝ) - 100 ≤ 0
    norm_num
  refine ⟨rfl, rfl, ?_, ?_, ?_, rfl⟩
  · show p.health - (ActorB.turret t).get_damage ≤ 0
    rw [hp]
    show (100 : ℝ) - 100 ≤ 0
    norm_num
  · intro a ha
    rw [List.mem_singleton] at ha
    rw [ha]
    exact hdeadt
  · show ([(ActorB.turret t).do_damage p.get_damage].filter
        (fun a => !(decide a.is_dead))) = []
    rw [List.filter_cons,
      show (!(decide (((ActorB.turret t).do_damage p.get_damage).is_dead))) = false from
        by rw [decide_eq_true hdeadt]; rfl]
    simp

/-- Witness for C2 (amended) at the concrete centred player and turret. -/
theorem player_turret_mutual_kill_witness :
    (MainState.mk player0 [ActorB.turret turret0]).handle_collisions.player.health
        = player0.health - turret0.get_damage ∧
    ((MainState.mk player0
        [ActorB.turret turret0]).handle_collisions.actors.getD 0 dummyActor).health
        = turret0.health - player0.get_damage ∧
    (MainState.mk player0 [ActorB.turret turret0]).handle_collisions.player.is_dead ∧
    (∀ a ∈ (MainState.mk player0
        [ActorB.turret turret0]).handle_collisions.actors, a.is_dead) ∧
    (MainState.mk player0
        [ActorB.turret turret0]).handle_collisions.remove_dead.actors = [] ∧
    (MainState.mk player0 [ActorB.turret turret0]).handle_collisions.remove_dead.player
        = (MainState.mk player0 [ActorB.turret turret0]).handle_collisions.player :=
  player_turret_mutual_kill player0 turret0 rfl rfl
    player0_turret0_collide.1 player0_turret0_collide.2

/-- C2 counterexample: in the concrete mutual-kill scenario the cull step
removes the dead turret from the actor collection but does not remove the
player — the world after remove_dead still holds the (dead) player in its
player field, so "both are removed from the world by the next cull step"
is false. -/
theorem player_survives_cull_counterexample :
    (MainState.mk player0 [ActorB.turret turret0]).handle_collisions.remove_dead.actors
        = [] ∧
    (MainState.mk player0 [ActorB.turret turret0]).handle_collisions.remove_dead.player
        = (MainState.mk player0 [ActorB.turret turret0]).handle_collisions.player ∧
    (MainState.mk player0
        [ActorB.turret turret0]).handle_collisions.remove_dead.player.is_dead := by
  rw [singleton_turret_pass player0 turret0 player0_turret0_collide]
  have hdeadt : ((ActorB.turret turret0).do_damage player0.get_damage).is_dead := by
    show turret0.health - player0.get_damage ≤ 0
    norm_num [turret0, Turret.new, Player.get_damage]
  refine ⟨?_, rfl, ?_⟩
  · show ([(ActorB.turret turret0).do_damage player0.get_damage].filter
        (fun a => !(decide a.is_dead))) = []
    rw [List.filter_cons,
      show (!(decide (((ActorB.turret turret0).do_damage player0.get_damage).is_dead)))
          = false from by rw [decide_eq_true hdeadt]; rfl]
    simp
  · show player0.health - (ActorB.turret turret0).get_damage ≤ 0
    norm_num [player0, Player.new, ActorB.get_damage, Turret.get_damage]

/-- C10: an actor `a` that dies from the player exchange at the start of
the pass (hdead) still participates fully in the remainder of that same
pass: with actors = [a, b, c] where `a` overlaps the player, `b` and `c`
(and no other pair overlaps), the already-dead `a` still deals its full
get_damage() to both `b` and `c` in the later pair tests of the same tick,
and itself takes their damage — handle_collisions never consults is_dead
and culling only runs afterwards. -/
theorem dead_actor_still_damages (p : Player) (a b c : ActorB)
    (hpa : p.check_for_collision a)
    (hab : a.check_for_collision b) (hac : a.check_for_collision c)
    (hpb : ¬ p.check_for_collision b) (hpc : ¬ p.check_for_collision c)
    (hbc : ¬ b.check_for_collision c)
    (hdead : (a.do_damage p.get_damage).is_dead) :
    (playerVs p a).2.is_dead ∧
    ((collisionLoop p [a, b, c]).2.getD 1 dummyActor).health
        = b.health - a.get_damage ∧
    ((collisionLoop p [a, b, c]).2.getD 2 dummyActor).health
        = c.health - a.get_damage ∧
    ((collisionLoop p [a, b, c]).2.getD 0 dummyActor).health
        = a.health - p.get_damage - b.get_damage - c.get_damage := by
  have hca : collide p.core a.core := (player_check_iff p a).mp hpa
  have hcab : collide a.core b.core := (actor_check_iff a b).mp hab
  have hcac : collide a.core c.core := (actor_check_iff a c).mp hac
  have hncb : ¬ collide p.core b.core := fun h => hpb ((player_check_iff p b).mpr h)
  have hncc : ¬ collide p.core c.core := fun h => hpc ((player_check_iff p c).mpr h)
  have hnbc : ¬ collide b.core c.core := fun h => hbc ((actor_check_iff b c).mpr h)
  have hsumnil : ∀ d : Core, sumDamage d [] = 0 := fun d => by simp [sumDamage]
  obtain ⟨-, -, -, h4⟩ := collisionLoop_spec [a, b, c] p
  have hmap : ([a, b, c].map ActorB.core) = [a.core, b.core, c.core] := rfl
  refine ⟨?_, ?_, ?_, ?_⟩
  · rw [show (playerVs p a).2 = a.do_damage p.get_damage from
      by unfold playerVs; rw [if_pos hpa]]
    exact hdead
  · have h := h4 1 (by simp)
    rw [hmap] at h
    have hl : lossAt p.core [a.core, b.core, c.core] 1 = a.core.dmg := by
      show lossAt p.core (a.core :: [b.core, c.core]) (0 + 1) = a.core.dmg
      rw [lossAt_succ,
        show ([b.core, c.core] : List Core).getD 0 dummyCore = b.core from rfl,
        lossAt_zero, sumDamage_cons, hsumnil,
        if_pos ((collide_comm a.core b.core).mp hcab), if_neg hncb, if_neg hnbc]
      ring
    rw [h, hl, ActorB.get_damage_eq]
    rfl
  · have h := h4 2 (by simp)
    rw [hmap] at h
    have hl2 : lossAt p.core [b.core, c.core] 1 = 0 := by
      show lossAt p.core (b.core :: [c.core]) (0 + 1) = 0
      rw [lossAt_succ,
        show ([c.core] : List Core).getD 0 dummyCore = c.core from rfl,
        lossAt_zero, hsumnil,
        if_neg (show ¬ collide c.core b.core from
          fun h => hnbc ((collide_comm c.core b.core).mp h)),
        if_neg hncc]
      ring
    have hl : lossAt p.core [a.core, b.core, c.core] 2 = a.core.dmg := by
      show lossAt p.core (a.core :: [b.core, c.core]) (1 + 1) = a.core.dmg
      rw [lossAt_succ,
        show ([b.core, c.core] : List Core).getD 1 dummyCore = c.core from rfl,
        hl2, if_pos ((collide_comm a.core c.core).mp hcac)]
      ring
    rw [h, hl, ActorB.get_damage_eq]
    rfl
  · have h := h4 0 (by simp)
    rw [hmap] at h
    have hl : lossAt p.core [a.core, b.core, c.core] 0
        = p.core.dmg + (b.core.dmg + (c.core.dmg + 0)) := by
      rw [lossAt_zero, if_pos hca, sumDamage_cons, sumDamage_cons, hsumnil,
        if_pos hcab, if_pos hcac]
    rw [h, hl, ActorB.get_damage_eq b, ActorB.get_damage_eq c]
    show a.health - (p.core.dmg + (b.core.dmg + (c.core.dmg + 0)))
        = a.health - p.core.dmg - b.core.dmg - c.core.dmg
    ring

/-- Witness for C10: concrete player, one turret overlapping the player
and two shots overlapping only the turret. -/
theorem dead_actor_still_damages_witness :
    (playerVs playerW (ActorB.turret turretW)).2.is_dead ∧
    ((collisionLoop playerW
        [ActorB.turret turretW, ActorB.shot shotW1, ActorB.shot shotW2]).2.getD 1
        dummyActor).health
      = (ActorB.shot shotW1).health - (ActorB.turret turretW).get_damage ∧
    ((collisionLoop playerW
        [ActorB.turret turretW, ActorB.shot shotW1, ActorB.shot shotW2]).2.getD 2
        dummyActor).health
      = (ActorB.shot shotW2).health - (ActorB.turret turretW).get_damage ∧
    ((collisionLoop playerW
        [ActorB.turret turretW, ActorB.shot shotW1, ActorB.shot shotW2]).2.getD 0
        dummyActor).health
      = (ActorB.turret turretW).health - playerW.get_damage
        - (ActorB.shot shotW1).get_damage - (ActorB.shot shotW2).get_damage := by
  have d1 : playerW.position.distance_to turretW.position = 24 := by
    show Real.sqrt ((playerW.position.x - turretW.position.x) ^ 2
        + (playerW.position.y - turretW.position.y) ^ 2) = 24
    rw [show (playerW.position.x - turretW.position.x) ^ 2
        + (playerW.position.y - turretW.position.y) ^ 2 = 24 ^ 2 by
      norm_num [playerW, turretW]]
    exact Real.sqrt_sq (by norm_num)
  have d2 : turretW.position.distance_to shotW1.position = 18 := by
    show Real.sqrt ((turretW.position.x - shotW1.position.x) ^ 2
        + (turretW.position.y - shotW1.position.y) ^ 2) = 18
    rw [show (turretW.position.x - shotW1.position.x) ^ 2
        + (turretW.position.y - shotW1.position.y) ^ 2 = 18 ^ 2 by
      norm_num [turretW, shotW1]]
    exact Real.sqrt_sq (by norm_num)
  have d3 : turretW.position.distance_to shotW2.position = 19 := by
    show Real.sqrt ((turretW.position.x - shotW2.position.x) ^ 2
        + (turretW.position.y - shotW2.position.y) ^ 2) = 19
    rw [show (turretW.position.x - shotW2.position.x) ^ 2
        + (turretW.position.y - shotW2.position.y) ^ 2 = 19 ^ 2 by
      norm_num [turretW, shotW2]]
    exact Real.sqrt_sq (by norm_num)
  have d4 : playerW.position.distance_to shotW1.position = 42 := by
    show Real.sqrt ((playerW.position.x - shotW1.position.x) ^ 2
        + (playerW.position.y - shotW1.position.y) ^ 2) = 42
    rw [show (playerW.position.x - shotW1.position.x) ^ 2
        + (playerW.position.y - shotW1.position.y) ^ 2 = 42 ^ 2 by
      norm_num [playerW, shotW1]]
    exact Real.sqrt_sq (by norm_num)
  have d5 : playerW.position.distance_to shotW2.position = Real.sqrt 937 := by
    show Real.sqrt ((playerW.position.x - shotW2.position.x) ^ 2
        + (playerW.position.y - shotW2.position.y) ^ 2) = Real.sqrt 937
    rw [show (playerW.position.x - shotW2.position.x) ^ 2
        + (playerW.position.y - shotW2.position.y) ^ 2 = (937 : ℝ) by
      norm_num [playerW, shotW2]]
  have d6 : shotW1.position.distance_to shotW2.position = Real.sqrt 685 := by
    show Real.sqrt ((shotW1.position.x - shotW2.position.x) ^ 2
        + (shotW1.position.y - shotW2.position.y) ^ 2) = Real.sqrt 685
    rw [show (shotW1.position.x - shotW2.position.x) ^ 2
        + (shotW1.position.y - shotW2.position.y) ^ 2 = (685 : ℝ) by
      norm_num [shotW1, shotW2]]
  have hpa : playerW.check_for_collision (ActorB.turret turretW) := by
    constructor
    · show playerW.position.distance_to turretW.position
          < PLAYER_RADIUS + TURRET_RADIUS - 0.1
      rw [d1]
      norm_num [PLAYER_RADIUS, TURRET_RADIUS]
    · show playerW.id ≠ turretW.id
      norm_num [playerW, turretW]
  have hab : (ActorB.turret turretW).check_for_collision (ActorB.shot shotW1) := by
    constructor
    · show turretW.position.distance_to shotW1.position
          < TURRET_RADIUS + SHOT_RADIUS - 0.1
      rw [d2]
      norm_num [TURRET_RADIUS, SHOT_RADIUS]
    · show turretW.id ≠ shotW1.id
      norm_num [turretW, shotW1]
  have hac : (ActorB.turret turretW).check_for_collision (ActorB.shot shotW2) := by
    constructor
    · show turretW.position.distance_to shotW2.position
          < TURRET_RADIUS + SHOT_RADIUS - 0.1
      rw [d3]
      norm_num [TURRET_RADIUS, SHOT_RADIUS]
    · show turretW.id ≠ shotW2.id
      norm_num [turretW, shotW2]
  have hpb : ¬ playerW.check_for_collision (ActorB.shot shotW1) := by
    rintro ⟨hlt, -⟩
    have hlt2 : playerW.position.distance_to shotW1.position
        < PLAYER_RADIUS + SHOT_RADIUS - 0.1 := hlt
    rw [d4] at hlt2
    norm_num [PLAYER_RADIUS, SHOT_RADIUS] at hlt2
  have hpc : ¬ playerW.check_for_collision (ActorB.shot shotW2) := by
    rintro ⟨hlt, -⟩
    have hlt2 : playerW.position.distance_to shotW2.position
        < PLAYER_RADIUS + SHOT_RADIUS - 0.1 := hlt
    rw [d5] at hlt2
    have hge : (24.9 : ℝ) ≤ Real.sqrt 937 := by
      rw [show (24.9 : ℝ) = Real.sqrt 620.01 from by
        rw [show (620.01 : ℝ) = 24.9 ^ 2 by norm_num, Real.sqrt_sq (by norm_num)]]
      exact Real.sqrt_le_sqrt (by norm_num)
    norm_num [PLAYER_RADIUS, SHOT_RADIUS] at hlt2
    linarith
  have hbc : ¬ (ActorB.shot shotW1).check_for_collision (ActorB.shot shotW2) := by
    rintro ⟨hlt, -⟩
    have hlt2 : shotW1.position.distance_to shotW2.position
        < SHOT_RADIUS + SHOT_RADIUS - 0.1 := hlt
    rw [d6] at hlt2
    have hge : (9.9 : ℝ) ≤ Real.sqrt 685 := by
      rw [show (9.9 : ℝ) = Real.sqrt 98.01 from by
        rw [show (98.01 : ℝ) = 9.9 ^ 2 by norm_num, Real.sqrt_sq (by norm_num)]]
      exact Real.sqrt_le_sqrt (by norm_num)
    norm_num [SHOT_RADIUS] at hlt2
    linarith
  have hdead : ((ActorB.turret turretW).do_damage playerW.get_damage).is_dead := by
    show turretW.health - playerW.get_damage ≤ 0
    norm_num [turretW, Player.get_damage]
  exact dead_actor_still_damages playerW (ActorB.turret turretW) (ActorB.shot shotW1)
    (ActorB.shot shotW2) hpa hab hac hpb hpc hbc hdead
